import Mathlib

/-!
Shallow embedding of the LED controller (`src/ledcontroller.go`) of the
`light` repository: the Channel Sink / Color value level, the Effect
Scheduler state (the package-level variables guarded by `mutex`), and the
control structure of the timed primitives `FadeColor` and `BlinkColor`.
Durations are modelled in nanoseconds as `Nat` (Go `time.Duration` is an
integer nanosecond count; all call sites pass non-negative durations).
-/

namespace LedController

/-- Effect type constant `EFFECT_NONE` (ledcontroller.go line 20). -/
def EFFECT_NONE : Int := 0

/-- Effect type constant `EFFECT_BOOTUP` (line 21). -/
def EFFECT_BOOTUP : Int := 1

/-- Effect type constant `EFFECT_NOTIFICATION` (line 22). -/
def EFFECT_NOTIFICATION : Int := 2

/-- Effect type constant `EFFECT_CALL` (line 23). -/
def EFFECT_CALL : Int := 3

/-- Effect type constant `EFFECT_CHARGING_LOW` (line 24). -/
def EFFECT_CHARGING_LOW : Int := 4

/-- Effect type constant `EFFECT_CHARGING_HIGH` (line 25). -/
def EFFECT_CHARGING_HIGH : Int := 5

/-- Effect type constant `EFFECT_CHARGING_COMPLETE` (line 26). -/
def EFFECT_CHARGING_COMPLETE : Int := 6

/-- Effect type constant `EFFECT_WIFI_CONNECTING` (line 27). -/
def EFFECT_WIFI_CONNECTING : Int := 7

/-- Effect type constant `EFFECT_WIFI_CONNECTED` (line 28). -/
def EFFECT_WIFI_CONNECTED : Int := 8

/-- Effect type constant `EFFECT_WIFI_FAILED` (line 29). -/
def EFFECT_WIFI_FAILED : Int := 9

/-- Effect type constant `EFFECT_BLUETOOTH_CONNECTING` (line 30). -/
def EFFECT_BLUETOOTH_CONNECTING : Int := 10

/-- Effect type constant `EFFECT_BLUETOOTH_CONNECTED` (line 31). -/
def EFFECT_BLUETOOTH_CONNECTED : Int := 11

/-- Effect type constant `EFFECT_BLUETOOTH_FAILED` (line 32). -/
def EFFECT_BLUETOOTH_FAILED : Int := 12

/-- Effect type constant `EFFECT_CAMERA_FOCUS` (line 33). -/
def EFFECT_CAMERA_FOCUS : Int := 13

/-- Effect type constant `EFFECT_CAMERA_CAPTURE` (line 34). -/
def EFFECT_CAMERA_CAPTURE : Int := 14

/-- Effect type constant `EFFECT_CAMERA_SAVE` (line 35). -/
def EFFECT_CAMERA_SAVE : Int := 15

/-- Effect type constant `EFFECT_PARTY` (line 36). -/
def EFFECT_PARTY : Int := 16

/-- Effect type constant `EFFECT_MUSIC` (line 37). -/
def EFFECT_MUSIC : Int := 17

/-- `Color` struct: three Go `int` channel values (lines 41-45). -/
structure Color where
  red : Int
  green : Int
  blue : Int
deriving DecidableEq, Repr

/-- Predefined color `ColorRed` (line 49). -/
def ColorRed : Color := ⟨255, 0, 0⟩

/-- Predefined color `ColorGreen` (line 50). -/
def ColorGreen : Color := ⟨0, 255, 0⟩

/-- Predefined color `ColorBlue` (line 51). -/
def ColorBlue : Color := ⟨0, 0, 255⟩

/-- Predefined color `ColorOff` (line 52). -/
def ColorOff : Color := ⟨0, 0, 0⟩

/-- Scheduler-visible events: a stop signal placed into the stop channel of
generation `gen`, and the launch of an effect goroutine for `kind`. -/
inductive SEv
  | sentStop (gen : Nat)
  | launch (kind : Int)
deriving DecidableEq, Repr

/-- The package-level mutable state of ledcontroller.go (lines 54-60),
plus the last value written to each hardware brightness file.  The stop
channel `stopChan` is modelled by a generation number `stopGen` (bumped
whenever the channel is replaced by a fresh `make`), the number of buffered
stop signals `stopSent` in the current channel, and the channel capacity
`stopCap` (5 from `init`, 1 after `StartEffect` remakes it).  `log` records
scheduler events for observation. -/
structure LState where
  hwRed : Int
  hwGreen : Int
  hwBlue : Int
  ledEnabled : Bool
  effectActive : Bool
  currentEffectType : Int
  stopGen : Nat
  stopSent : Nat
  stopCap : Nat
  log : List SEv
deriving DecidableEq, Repr

/-- Clamping of a channel value to [0,255], as performed inside `setRed`,
`setGreen` and `setBlue` (lines 103-108 and analogues). -/
def clamp (v : Int) : Int :=
  if v < 0 then 0 else if v > 255 then 255 else v

/-- `setRed` (lines 94-112): reads the enable gate; when disabled it returns
nil without writing; otherwise it clamps the value and writes the red
brightness file.  Hardware I/O failures are not modelled at this level
(they are modelled separately for the Fade primitive). -/
def setRedS (v : Int) (s : LState) : LState :=
  if s.ledEnabled then { s with hwRed := clamp v } else s

/-- `setGreen` (lines 115-133), analogous to `setRed`. -/
def setGreenS (v : Int) (s : LState) : LState :=
  if s.ledEnabled then { s with hwGreen := clamp v } else s

/-- `setBlue` (lines 136-154), analogous to `setRed`. -/
def setBlueS (v : Int) (s : LState) : LState :=
  if s.ledEnabled then { s with hwBlue := clamp v } else s

/-- The range validation of `setColor` (lines 163-165): true when some
channel of the color lies outside [0,255]. -/
def colorOutOfRange (c : Color) : Bool :=
  (c.red < 0) || (c.red > 255) || (c.green < 0) || (c.green > 255) ||
    (c.blue < 0) || (c.blue > 255)

/-- Errors surfaced by `setColor`: the range-validation error of line 166. -/
inductive Err
  | invalidColor
deriving DecidableEq, Repr

/-- `setColor` (lines 156-180): returns nil immediately while the master
enable is off; otherwise validates all three channels against [0,255],
returning an error without any write when validation fails, and writes
red, green, blue in that order when it succeeds. -/
def setColorS (c : Color) (s : LState) : LState × Option Err :=
  if !s.ledEnabled then (s, none)
  else if colorOutOfRange c then (s, some Err.invalidColor)
  else (setBlueS c.blue (setGreenS c.green (setRedS c.red s)), none)

/-- `IsLEDEnabled` (lines 1704-1709). -/
def IsLEDEnabledS (s : LState) : Bool := s.ledEnabled

/-- `IsEffectActive` (lines 1674-1679). -/
def IsEffectActiveS (s : LState) : Bool := s.effectActive

/-- `GetCurrentEffect` (lines 1662-1672): `EFFECT_NONE` while no effect is
active, otherwise `currentEffectType`. -/
def GetCurrentEffectS (s : LState) : Int :=
  if s.effectActive then s.currentEffectType else EFFECT_NONE

/-- The non-blocking `select { case stopChan <- true: ... default: ... }`
send used by `StopCurrentEffect`, `runTimedEffect` and `StartEffect`: the
signal enters the buffer only if there is room. -/
def sendStopNB (s : LState) : LState :=
  if s.stopSent < s.stopCap then
    { s with stopSent := s.stopSent + 1, log := SEv.sentStop s.stopGen :: s.log }
  else s

/-- `StopCurrentEffect` (lines 67-91): under the lock, if an effect is
active it sends a stop signal non-blockingly; in every case it then resets
`currentEffectType` to `EFFECT_NONE`.  It deliberately does not touch
`effectActive` (comment at lines 89-90) and it has no error result. -/
def StopCurrentEffectS (s : LState) : LState :=
  let s1 := if s.effectActive then sendStopNB s else s
  { s1 with currentEffectType := EFFECT_NONE }

/-- `SetLEDEnabled` (lines 1681-1702): records the previous gate state,
updates the gate, and on a true-to-false transition writes "0" directly to
all three brightness files with `ioutil.WriteFile`, bypassing the
`ledEnabled` check of the channel setters.  It never touches `stopChan`,
`effectActive` or `currentEffectType`, and always returns true. -/
def SetLEDEnabledS (enabled : Bool) (s : LState) : LState × Bool :=
  let prev := s.ledEnabled
  let s1 := { s with ledEnabled := enabled }
  if prev && !enabled then
    ({ s1 with hwRed := 0, hwGreen := 0, hwBlue := 0 }, true)
  else (s1, true)

/-- The set of effect types dispatched by the `switch` of `StartEffect`
(lines 1738-1770); every other value falls to the `default` branch.  Note
that `EFFECT_MUSIC` has no case in the switch. -/
def recognizedEffect (k : Int) : Bool :=
  (k == EFFECT_BOOTUP) || (k == EFFECT_NOTIFICATION) || (k == EFFECT_CALL) ||
    (k == EFFECT_CHARGING_LOW) || (k == EFFECT_CHARGING_HIGH) ||
    (k == EFFECT_CHARGING_COMPLETE) || (k == EFFECT_WIFI_CONNECTING) ||
    (k == EFFECT_WIFI_CONNECTED) || (k == EFFECT_WIFI_FAILED) ||
    (k == EFFECT_BLUETOOTH_CONNECTING) || (k == EFFECT_BLUETOOTH_CONNECTED) ||
    (k == EFFECT_BLUETOOTH_FAILED) || (k == EFFECT_PARTY) ||
    (k == EFFECT_CAMERA_FOCUS) || (k == EFFECT_CAMERA_CAPTURE) ||
    (k == EFFECT_CAMERA_SAVE)

/-- `StartEffect` (lines 1711-1777): returns false at once while the LED is
disabled; otherwise, if an effect is active, sends a non-blocking stop
signal to the current stop channel; then replaces `stopChan` with a fresh
channel of capacity 1, sets `effectActive` and `currentEffectType`, and
dispatches on the effect type: a recognized type launches its goroutine and
returns true, the `default` branch resets `effectActive` to false and
returns false (leaving `currentEffectType` at the rejected value). -/
def StartEffectS (effectType : Int) (s : LState) : LState × Bool :=
  if !(IsLEDEnabledS s) then (s, false)
  else
    let s1 := if s.effectActive then sendStopNB s else s
    let s2 := { s1 with stopGen := s1.stopGen + 1, stopSent := 0, stopCap := 1,
                        effectActive := true, currentEffectType := effectType }
    if recognizedEffect effectType then
      ({ s2 with log := SEv.launch effectType :: s2.log }, true)
    else
      ({ s2 with effectActive := false }, false)

/-- The epilogue of the goroutine launched by `runTimedEffect`
(lines 1607-1624): after the effect body returns it writes `ColorOff`
through the gated `setColor`, then sets `effectActive` to false and
`currentEffectType` to `EFFECT_NONE`.  `completingGen` is the generation of
the stop channel that was current when this task was started; the source
never consults it — the state update is unconditional. -/
def effectGoroutineFinish (completingGen : Nat) (s : LState) : LState :=
  let s1 := (setColorS ColorOff s).1
  { s1 with effectActive := false, currentEffectType := EFFECT_NONE }

/-- `SetRGB` (lines 1657-1660): stop the current effect, then `setColor`. -/
def SetRGBS (red green blue : Int) (s : LState) : LState × Option Err :=
  setColorS ⟨red, green, blue⟩ (StopCurrentEffectS s)

/-- The step-count choice of `FadeColor` (lines 191-202), in nanoseconds:
start from 50 steps; if the resulting step duration exceeds 20ms, take
`duration / 20ms` steps instead, with a floor of 10. -/
def fadeSteps (d : Nat) : Nat :=
  let steps := 50
  let stepDuration := d / steps
  if 20000000 < stepDuration then
    let steps2 := d / 20000000
    if steps2 < 10 then 10 else steps2
  else steps

/-- The per-step wait `stepDuration` finally used by `FadeColor`
(line 192 resp. line 200): the duration divided by the chosen step count. -/
def fadeStepDuration (d : Nat) : Nat := d / fadeSteps d

/-- Write events of one `FadeColor` run: the successful write of the
interpolated color of step `i`, an attempted write at step `i` that came
back with an I/O error, and a write of `ColorOff`. -/
inductive FEv
  | stepWrite (i : Nat)
  | failWrite (i : Nat)
  | offWrite
deriving DecidableEq, Repr

/-- The step loop of `FadeColor` (lines 204-264) with no cancellation
signal and `effectActive` held true, parametrized by which steps' hardware
writes fail (`ioFail`).  Each iteration attempts the write of its step's
interpolated color: on an I/O error the routine writes `ColorOff` and
returns the error at once (lines 230-234), abandoning the remaining steps;
on success it sleeps `stepDuration` (waits perform no writes and are not
recorded) and continues.  The `Bool` result is true when the loop ran all
its iterations and `FadeColor` returned nil, false when it returned the
write error.  `n` is the number of loop iterations still to run and `i` the
current step index; `FadeColor` runs `fadeSteps d + 1` iterations
(`for step := 0; step <= steps; step++`). -/
def fadeLoop (ioFail : Nat → Bool) : Nat → Nat → List FEv × Bool
  | 0, _ => ([], true)
  | n + 1, i =>
    if ioFail i then ([FEv.failWrite i, FEv.offWrite], false)
    else
      let rest := fadeLoop ioFail n (i + 1)
      (FEv.stepWrite i :: rest.1, rest.2)

/-- A whole `FadeColor` run over duration `d` nanoseconds under the I/O
failure schedule `ioFail`: the step loop starting at step 0 with
`fadeSteps d + 1` iterations. -/
def fadeRun (ioFail : Nat → Bool) (d : Nat) : List FEv × Bool :=
  fadeLoop ioFail (fadeSteps d + 1) 0

/-- The inner sub-wait loop of `FadeColor` (lines 236-262), fuel-indexed:
one step's wait of `rem` nanoseconds is cut into successive sleeps of
`min rem 10ms` until the remainder reaches zero.  The fuel
`rem / 10ms + 1` of `fadeSubWaits` is enough for every chunk. -/
def subWaitGo : Nat → Nat → List Nat
  | 0, _ => []
  | fuel + 1, rem =>
    if rem = 0 then []
    else min rem 10000000 :: subWaitGo fuel (rem - min rem 10000000)

/-- The list of sub-wait chunks into which `FadeColor` subdivides one step
wait of `rem` nanoseconds (lines 236-262). -/
def fadeSubWaits (rem : Nat) : List Nat :=
  subWaitGo (rem / 10000000 + 1) rem

/-- Cancellation points of one `BlinkColor` cycle `i` (lines 355-417): the
stop-channel check of the select before the color write (line 359), the
select during the on-wait (line 380), and the select during the off-wait
(line 401). -/
inductive BStop
  | beforeWrite (i : Nat)
  | duringOn (i : Nat)
  | duringOff (i : Nat)
deriving DecidableEq, Repr

/-- The cycle index at which a `BStop` cancellation point fires. -/
def BStop.idx : BStop → Nat
  | .beforeWrite i => i
  | .duringOn i => i
  | .duringOff i => i

/-- Observable events of a `BlinkColor` run: a `setColor(color)` write, a
`setColor(ColorOff)` write, and one uninterrupted blocking wait of `d`
nanoseconds (a single `select` with `time.After(d)`). -/
inductive BEv
  | colorWrite (c : Color)
  | offWrite
  | wait (d : Nat)
deriving DecidableEq, Repr

/-- The loop of `BlinkColor` (lines 355-417) with `effectActive` held true,
parametrized by the point `stop` at which the stop channel delivers a
signal (`none`: never).  Cycle `i`: a select checks the stop channel
(on cancellation: write off, return), else the color is written; one select
waits the full `onD` watching the stop channel (on cancellation: write off,
return; an interrupted wait is not recorded); then `ColorOff` is written
(line 398); one select waits the full `offD` watching the stop channel
(on cancellation: write off, return).  `n` is the number of cycles still to
run: for `blinkCount > 0` it is `blinkCount`; the unbounded
`blinkCount = 0` run cancelled at cycle `j` coincides with any `n > j`. -/
def blinkGo (c : Color) (onD offD : Nat) (stop : Option BStop) :
    Nat → Nat → List BEv
  | 0, _ => []
  | n + 1, i =>
    if stop = some (BStop.beforeWrite i) then [BEv.offWrite]
    else
      BEv.colorWrite c ::
        (if stop = some (BStop.duringOn i) then [BEv.offWrite]
         else
           BEv.wait onD :: BEv.offWrite ::
             (if stop = some (BStop.duringOff i) then [BEv.offWrite]
              else BEv.wait offD :: blinkGo c onD offD stop n (i + 1)))

/-- A concrete enabled, idle state: no effect active, a stale
`currentEffectType` of 17 left behind, nonzero hardware values. -/
def sEnabledIdle : LState :=
  { hwRed := 7, hwGreen := 7, hwBlue := 7, ledEnabled := true,
    effectActive := false, currentEffectType := 17, stopGen := 4,
    stopSent := 0, stopCap := 5, log := [] }

/-- A concrete disabled state. -/
def sDisabled : LState :=
  { hwRed := 7, hwGreen := 7, hwBlue := 7, ledEnabled := false,
    effectActive := false, currentEffectType := 0, stopGen := 0,
    stopSent := 0, stopCap := 5, log := [] }

/-- A concrete enabled state with an effect running: the notification
effect, stop channel generation 4 (capacity 1, empty buffer). -/
def sRunning : LState :=
  { hwRed := 9, hwGreen := 9, hwBlue := 9, ledEnabled := true,
    effectActive := true, currentEffectType := 2, stopGen := 4,
    stopSent := 0, stopCap := 1, log := [] }

/-! ## Theorems -/

/-- Claim C6: `FadeColor` chooses its step count so that no single step's
wait exceeds about 20 ms (at most 20.4 ms, i.e. 20 ms plus one part in
fifty) regardless of total duration, and the step count never falls below
the floor of 10. -/
theorem fade_step_duration_bounded (d : Nat) :
    fadeStepDuration d ≤ 20400000 ∧ 10 ≤ fadeSteps d := by
  have heq : fadeSteps d =
      if 20000000 < d / 50 then
        (if d / 20000000 < 10 then 10 else d / 20000000) else 50 := rfl
  by_cases h : 20000000 < d / 50
  · have hd : (20000000 + 1) * 50 ≤ d :=
      (Nat.le_div_iff_mul_le (by norm_num)).mp h
    have hq : 50 ≤ d / 20000000 :=
      (Nat.le_div_iff_mul_le (by norm_num)).mpr (by omega)
    have hq0 : 0 < d / 20000000 := by omega
    have hr := Nat.div_add_mod d 20000000
    have hm : d % 20000000 < 20000000 := Nat.mod_lt _ (by norm_num)
    have hlt : d < 20400000 * (d / 20000000) := by omega
    have hbound : d / (d / 20000000) < 20400000 :=
      (Nat.div_lt_iff_lt_mul hq0).mpr hlt
    have hsteps : fadeSteps d = d / 20000000 := by
      rw [heq, if_pos h, if_neg (by omega)]
    constructor
    · rw [fadeStepDuration, hsteps]; omega
    · omega
  · have hsteps : fadeSteps d = 50 := by rw [heq, if_neg h]
    constructor
    · rw [fadeStepDuration, hsteps]; omega
    · omega

/-- Claim C10: while the master enable is off, `setColor` returns nil
immediately, with no range validation and no channel write: the result
state is unchanged and the error is `none` for every color, in-range or
not. -/
theorem setColor_disabled_returns_nil (c : Color) (s : LState)
    (h : s.ledEnabled = false) : setColorS c s = (s, none) := by
  simp [setColorS, h]

/-- Witness for `setColor_disabled_returns_nil` at the out-of-range color
(-5, 300, 128) and a concrete disabled state. -/
theorem setColor_disabled_returns_nil_witness :
    sDisabled.ledEnabled = false ∧
      setColorS ⟨-5, 300, 128⟩ sDisabled = (sDisabled, none) :=
  ⟨rfl, setColor_disabled_returns_nil ⟨-5, 300, 128⟩ sDisabled rfl⟩

/-- Claim C2, counterexample: `setColor(-5, 300, 128)` on an enabled state
does not clamp: it returns the range-validation error and writes no
channel (the state is unchanged, so the hardware shows the previous values
7,7,7 rather than 0,255,128). -/
theorem setColor_rejects_out_of_range_cex :
    (setColorS ⟨-5, 300, 128⟩ sEnabledIdle).2 = some Err.invalidColor ∧
      (setColorS ⟨-5, 300, 128⟩ sEnabledIdle).1 = sEnabledIdle ∧
      ¬((setColorS ⟨-5, 300, 128⟩ sEnabledIdle).1.hwRed = 0 ∧
        (setColorS ⟨-5, 300, 128⟩ sEnabledIdle).1.hwGreen = 255 ∧
        (setColorS ⟨-5, 300, 128⟩ sEnabledIdle).1.hwBlue = 128) := by
  decide

/-- Claim C2, amended: while enabled, `setColor` with any out-of-range
channel value returns an error without writing any channel; clamping to
[0,255] is performed only by the per-channel setters `setRed`, `setGreen`
and `setBlue`. -/
theorem setColor_validates_channels_clamp (s : LState) (c : Color) (v : Int)
    (hE : s.ledEnabled = true) :
    (colorOutOfRange c = true → setColorS c s = (s, some Err.invalidColor)) ∧
      (setRedS v s).hwRed = clamp v ∧
      (setGreenS v s).hwGreen = clamp v ∧
      (setBlueS v s).hwBlue = clamp v := by
  refine ⟨fun hc => ?_, ?_, ?_, ?_⟩ <;>
    simp [setColorS, setRedS, setGreenS, setBlueS, hE, *]

/-- Witness for `setColor_validates_channels_clamp` at (-5, 300, 128) on a
concrete enabled state, with the clamped per-channel write of 300. -/
theorem setColor_validates_channels_clamp_witness :
    sEnabledIdle.ledEnabled = true ∧
      setColorS ⟨-5, 300, 128⟩ sEnabledIdle = (sEnabledIdle, some Err.invalidColor) ∧
      (setRedS 300 sEnabledIdle).hwRed = clamp 300 ∧ clamp 300 = 255 :=
  ⟨rfl,
    (setColor_validates_channels_clamp sEnabledIdle ⟨-5, 300, 128⟩ 300 rfl).1
      (by decide),
    (setColor_validates_channels_clamp sEnabledIdle ⟨-5, 300, 128⟩ 300 rfl).2.1,
    by decide⟩

/-- Claim C8: `StopCurrentEffect` called while no effect is active is an
observable no-op and has no error result: `IsEffectActive`,
`GetCurrentEffect`, the enable flag, the hardware channel values, the stop
channel generation and buffer, and the event log are all unchanged. -/
theorem stopCurrentEffect_idle_noop (s : LState) (h : s.effectActive = false) :
    IsEffectActiveS (StopCurrentEffectS s) = IsEffectActiveS s ∧
      GetCurrentEffectS (StopCurrentEffectS s) = GetCurrentEffectS s ∧
      (StopCurrentEffectS s).ledEnabled = s.ledEnabled ∧
      (StopCurrentEffectS s).hwRed = s.hwRed ∧
      (StopCurrentEffectS s).hwGreen = s.hwGreen ∧
      (StopCurrentEffectS s).hwBlue = s.hwBlue ∧
      (StopCurrentEffectS s).stopGen = s.stopGen ∧
      (StopCurrentEffectS s).stopSent = s.stopSent ∧
      (StopCurrentEffectS s).log = s.log := by
  simp [StopCurrentEffectS, IsEffectActiveS, GetCurrentEffectS, h]

/-- Witness for `stopCurrentEffect_idle_noop` at a concrete idle state
(one with a stale nonzero `currentEffectType` left behind). -/
theorem stopCurrentEffect_idle_noop_witness :
    sEnabledIdle.effectActive = false ∧
      (IsEffectActiveS (StopCurrentEffectS sEnabledIdle) = IsEffectActiveS sEnabledIdle ∧
        GetCurrentEffectS (StopCurrentEffectS sEnabledIdle) = GetCurrentEffectS sEnabledIdle ∧
        (StopCurrentEffectS sEnabledIdle).ledEnabled = sEnabledIdle.ledEnabled ∧
        (StopCurrentEffectS sEnabledIdle).hwRed = sEnabledIdle.hwRed ∧
        (StopCurrentEffectS sEnabledIdle).hwGreen = sEnabledIdle.hwGreen ∧
        (StopCurrentEffectS sEnabledIdle).hwBlue = sEnabledIdle.hwBlue ∧
        (StopCurrentEffectS sEnabledIdle).stopGen = sEnabledIdle.stopGen ∧
        (StopCurrentEffectS sEnabledIdle).stopSent = sEnabledIdle.stopSent ∧
        (StopCurrentEffectS sEnabledIdle).log = sEnabledIdle.log) :=
  ⟨rfl, stopCurrentEffect_idle_noop sEnabledIdle rfl⟩

/-- Claim C7: `StartEffect` returns false exactly when the master enable
is off or the effect type is not recognized by its dispatch switch (so it
returns true for every recognized type while enabled), and while disabled
it is rejected with the whole state unchanged: no goroutine launch, no
stop signal, no flag update. -/
theorem startEffect_false_iff_disabled_or_unrecognized (k : Int) (s : LState) :
    (StartEffectS k s).2 = (s.ledEnabled && recognizedEffect k) ∧
      (s.ledEnabled = false → StartEffectS k s = (s, false)) := by
  constructor
  · by_cases hE : s.ledEnabled <;> by_cases hR : recognizedEffect k <;>
      simp [StartEffectS, IsLEDEnabledS, hE, hR]
  · intro hE
    simp [StartEffectS, IsLEDEnabledS, hE]

/-- Witness for `startEffect_false_iff_disabled_or_unrecognized` at the
recognized kind `EFFECT_CALL` and a concrete disabled state. -/
theorem startEffect_false_iff_disabled_or_unrecognized_witness :
    sDisabled.ledEnabled = false ∧
      (StartEffectS 3 sDisabled).2 = (sDisabled.ledEnabled && recognizedEffect 3) ∧
      StartEffectS 3 sDisabled = (sDisabled, false) :=
  ⟨rfl, (startEffect_false_iff_disabled_or_unrecognized 3 sDisabled).1,
    (startEffect_false_iff_disabled_or_unrecognized 3 sDisabled).2 rfl⟩

/-- Claim C4: `SetLEDEnabled(false)` on a previously enabled state forces
an immediate hardware off write (all three channels 0, although the gate
just closed, i.e. bypassing it), but does not cancel the running effect:
`effectActive` and `currentEffectType` are untouched, no stop signal is
sent and the stop channel is not replaced; and any subsequent channel
write on the disabled state is suppressed (a no-op returning nil). -/
theorem setEnabled_false_mutes_not_stops (s : LState) (v : Int)
    (h : s.ledEnabled = true) :
    (SetLEDEnabledS false s).1.hwRed = 0 ∧
      (SetLEDEnabledS false s).1.hwGreen = 0 ∧
      (SetLEDEnabledS false s).1.hwBlue = 0 ∧
      (SetLEDEnabledS false s).1.ledEnabled = false ∧
      IsEffectActiveS (SetLEDEnabledS false s).1 = IsEffectActiveS s ∧
      (SetLEDEnabledS false s).1.currentEffectType = s.currentEffectType ∧
      (SetLEDEnabledS false s).1.stopGen = s.stopGen ∧
      (SetLEDEnabledS false s).1.stopSent = s.stopSent ∧
      (SetLEDEnabledS false s).1.log = s.log ∧
      setRedS v (SetLEDEnabledS false s).1 = (SetLEDEnabledS false s).1 ∧
      setGreenS v (SetLEDEnabledS false s).1 = (SetLEDEnabledS false s).1 ∧
      setBlueS v (SetLEDEnabledS false s).1 = (SetLEDEnabledS false s).1 := by
  simp [SetLEDEnabledS, IsEffectActiveS, setRedS, setGreenS, setBlueS, h]

/-- Witness for `setEnabled_false_mutes_not_stops` at a concrete enabled
state with a running effect, showing `IsEffectActive` still reports true
afterwards. -/
theorem setEnabled_false_mutes_not_stops_witness :
    sRunning.ledEnabled = true ∧ IsEffectActiveS sRunning = true ∧
      ((SetLEDEnabledS false sRunning).1.hwRed = 0 ∧
        (SetLEDEnabledS false sRunning).1.hwGreen = 0 ∧
        (SetLEDEnabledS false sRunning).1.hwBlue = 0 ∧
        (SetLEDEnabledS false sRunning).1.ledEnabled = false ∧
        IsEffectActiveS (SetLEDEnabledS false sRunning).1 = IsEffectActiveS sRunning ∧
        (SetLEDEnabledS false sRunning).1.currentEffectType = sRunning.currentEffectType ∧
        (SetLEDEnabledS false sRunning).1.stopGen = sRunning.stopGen ∧
        (SetLEDEnabledS false sRunning).1.stopSent = sRunning.stopSent ∧
        (SetLEDEnabledS false sRunning).1.log = sRunning.log ∧
        setRedS 200 (SetLEDEnabledS false sRunning).1 = (SetLEDEnabledS false sRunning).1 ∧
        setGreenS 200 (SetLEDEnabledS false sRunning).1 = (SetLEDEnabledS false sRunning).1 ∧
        setBlueS 200 (SetLEDEnabledS false sRunning).1 = (SetLEDEnabledS false sRunning).1) :=
  ⟨rfl, rfl, setEnabled_false_mutes_not_stops sRunning 200 rfl⟩

/-- Claim C9: `StartEffect` with an unrecognized effect type while another
effect is running (and the LED enabled, with room in the stop channel)
returns false but is not state-preserving: it sends a stop signal to the
running effect's channel, replaces the stop channel with a fresh
generation, and leaves `effectActive` false — the previous effect is torn
down even though the start was rejected (and `currentEffectType` is left
at the rejected value). -/
theorem startEffect_unrecognized_teardown (s : LState) (k : Int)
    (hA : s.effectActive = true) (hE : s.ledEnabled = true)
    (hR : recognizedEffect k = false) (hRoom : s.stopSent < s.stopCap) :
    (StartEffectS k s).2 = false ∧
      (StartEffectS k s).1.log = SEv.sentStop s.stopGen :: s.log ∧
      (StartEffectS k s).1.stopGen = s.stopGen + 1 ∧
      (StartEffectS k s).1.stopSent = 0 ∧
      (StartEffectS k s).1.effectActive = false ∧
      (StartEffectS k s).1.currentEffectType = k := by
  simp [StartEffectS, IsLEDEnabledS, sendStopNB, hA, hE, hR, hRoom]

/-- Witness for `startEffect_unrecognized_teardown` at the undispatched
type `EFFECT_MUSIC` (17) on a concrete running state. -/
theorem startEffect_unrecognized_teardown_witness :
    sRunning.effectActive = true ∧ recognizedEffect 17 = false ∧
      ((StartEffectS 17 sRunning).2 = false ∧
        (StartEffectS 17 sRunning).1.log = SEv.sentStop sRunning.stopGen :: sRunning.log ∧
        (StartEffectS 17 sRunning).1.stopGen = sRunning.stopGen + 1 ∧
        (StartEffectS 17 sRunning).1.stopSent = 0 ∧
        (StartEffectS 17 sRunning).1.effectActive = false ∧
        (StartEffectS 17 sRunning).1.currentEffectType = 17) :=
  ⟨rfl, by decide,
    startEffect_unrecognized_teardown sRunning 17 rfl rfl (by decide) (by decide)⟩

/-- Claim C1, counterexample: start a new effect (`EFFECT_CALL`) over the
running state of generation 4, which installs generation 5 with
`effectActive = true`; the completion epilogue of the superseded
generation-4 task then still clears `effectActive` and
`currentEffectType` — the stale completion is not discarded and does
transition state backward. -/
theorem stale_completion_clears_state :
    (StartEffectS 3 sRunning).1.effectActive = true ∧
      (StartEffectS 3 sRunning).1.stopGen = 5 ∧
      sRunning.stopGen = 4 ∧
      sRunning.stopGen ≠ (StartEffectS 3 sRunning).1.stopGen ∧
      (effectGoroutineFinish 4 (StartEffectS 3 sRunning).1).effectActive = false ∧
      (effectGoroutineFinish 4 (StartEffectS 3 sRunning).1).currentEffectType = 0 := by
  decide

/-- Claim C1, amended: the completion epilogue of an effect task
transitions to Idle unconditionally — it sets `effectActive` to false and
`currentEffectType` to `EFFECT_NONE` without consulting which stop channel
the completing task was started with (the result is the same for every
completing generation), so a completion belonging to a superseded token
does clear the state installed by a later `StartEffect`; the enable flag,
the stop channel and the event log are untouched. -/
theorem completion_unconditionally_idles (g g' : Nat) (s : LState) :
    effectGoroutineFinish g s = effectGoroutineFinish g' s ∧
      IsEffectActiveS (effectGoroutineFinish g s) = false ∧
      GetCurrentEffectS (effectGoroutineFinish g s) = EFFECT_NONE ∧
      (effectGoroutineFinish g s).stopGen = s.stopGen ∧
      (effectGoroutineFinish g s).stopSent = s.stopSent ∧
      (effectGoroutineFinish g s).ledEnabled = s.ledEnabled ∧
      (effectGoroutineFinish g s).log = s.log := by
  have hoff : colorOutOfRange ColorOff = false := by decide
  by_cases hE : s.ledEnabled <;>
    simp [effectGoroutineFinish, setColorS, IsEffectActiveS, GetCurrentEffectS,
      setRedS, setGreenS, setBlueS, hE, hoff]

/-- Helper for claim C3: if the first failing hardware write of a
`FadeColor` step loop starting at step `i` occurs at step `i + k`, and at
least `k + 1` iterations remain, the loop performs exactly the successful
writes of steps `i` to `i + k - 1`, then the failing write, then the off
write, and returns the error. -/
theorem fadeLoop_first_fail (f : Nat → Bool) :
    ∀ (k n i : Nat), (∀ j, j < k → f (i + j) = false) → f (i + k) = true →
      k < n →
      fadeLoop f n i =
        ((List.range' i k).map FEv.stepWrite ++
          [FEv.failWrite (i + k), FEv.offWrite], false) := by
  intro k
  induction k with
  | zero =>
    intro n i _ hf hn
    match n, hn with
    | n + 1, _ =>
      have h0 : f i = true := by simpa using hf
      simp [fadeLoop, h0]
  | succ k ih =>
    intro n i hpre hf hn
    match n, hn with
    | n + 1, hn =>
      have h0 : f i = false := by simpa using hpre 0 (Nat.succ_pos k)
      have hrest := ih n (i + 1)
        (fun j hj => by
          have := hpre (j + 1) (by omega)
          simpa [show i + (j + 1) = i + 1 + j by omega] using this)
        (by simpa [show i + 1 + k = i + (k + 1) by omega] using hf)
        (by omega)
      simp [fadeLoop, h0, hrest, List.range'_succ,
        show i + 1 + k = i + (k + 1) by omega]

/-- Claim C3, counterexample: a write failure at step 0 of a 1-second fade
is fatal to the primitive — `FadeColor` returns the error and performs
none of its remaining steps (the trace holds only the failing write and
the off write; in particular step 1 is never written), rather than
continuing. -/
theorem fade_failure_not_continuing_cex :
    fadeRun (fun i => i == 0) 1000000000 =
        ([FEv.failWrite 0, FEv.offWrite], false) ∧
      FEv.stepWrite 1 ∉ (fadeRun (fun i => i == 0) 1000000000).1 := by
  decide

/-- Claim C3, amended: a hardware write failure during `FadeColor` is
reported upward but aborts the primitive: if the first failing write is at
step `k` (within the step range), the fade performs the successful writes
of steps 0 to k-1, then writes off and returns the error, abandoning its
remaining steps (`PulseColor` propagates such an error the same way,
writing off and abandoning its remaining cycles). -/
theorem fade_write_failure_aborts (f : Nat → Bool) (d k : Nat)
    (hk : f k = true) (hpre : ∀ j, j < k → f j = false)
    (hle : k ≤ fadeSteps d) :
    fadeRun f d =
      ((List.range k).map FEv.stepWrite ++
        [FEv.failWrite k, FEv.offWrite], false) := by
  have h := fadeLoop_first_fail f k (fadeSteps d + 1) 0
    (fun j hj => by simpa using hpre j hj) (by simpa using hk) (by omega)
  simpa [fadeRun, List.range_eq_range'] using h

/-- Witness for `fade_write_failure_aborts`: the first write failure at
step 2 of a 1-second fade (50 steps) yields exactly two successful step
writes, the failing write, the off write, and the error result. -/
theorem fade_write_failure_aborts_witness :
    (fun i => i == 2) 2 = true ∧ 2 ≤ fadeSteps 1000000000 ∧
      fadeRun (fun i => i == 2) 1000000000 =
        ((List.range 2).map FEv.stepWrite ++
          [FEv.failWrite 2, FEv.offWrite], false) :=
  ⟨by decide, by decide,
    fade_write_failure_aborts (fun i => i == 2) 1000000000 2 (by decide)
      (by decide) (by decide)⟩

/-- Claim C5, counterexample: with a 200 ms on-duration and 400 ms
off-duration (the Bluetooth-failed parameters), one uncancelled
`BlinkColor` cycle blocks in a single select for the whole 200 ms on-wait
and a single select for the whole 400 ms off-wait — the waits are not
subdivided into sub-waits, whereas `FadeColor` would cut a 200 ms wait
into twenty 10 ms sub-waits. -/
theorem blink_wait_single_select_cex :
    blinkGo ColorBlue 200000000 400000000 none 1 0 =
        [BEv.colorWrite ColorBlue, BEv.wait 200000000, BEv.offWrite,
          BEv.wait 400000000] ∧
      fadeSubWaits 200000000 = List.replicate 20 10000000 ∧
      200000000 > 10000000 := by
  decide

/-- Claim C5, amended: in `BlinkColor` the stop channel is checked before
each color write and watched during both the on-wait and the off-wait —
each wait being a single select on the full duration alongside the timer
rather than being subdivided into sub-waits — and on cancellation at any
of these points the routine writes off and returns: the trace of a run
cancelled at any in-range cycle ends with an off write. -/
theorem blink_cancel_writes_off (c : Color) (onD offD n i : Nat) (p : BStop)
    (h1 : i ≤ p.idx) (h2 : p.idx < i + n) :
    (blinkGo c onD offD (some p) n i).getLast? = some BEv.offWrite := by
  induction n generalizing i with
  | zero => omega
  | succ n ih =>
    by_cases hb : p = BStop.beforeWrite i
    · simp [blinkGo, hb]
    · by_cases hon : p = BStop.duringOn i
      · simp [blinkGo, hon]
      · by_cases hoff : p = BStop.duringOff i
        · simp [blinkGo, hoff]
        · have hne : p.idx ≠ i := by
            cases p <;> simp_all [BStop.idx]
          have hrest := ih (i + 1) (by omega) (by omega)
          simp only [blinkGo, Option.some.injEq, if_neg hb, if_neg hon,
            if_neg hoff]
          cases hcase : blinkGo c onD offD (some p) n (i + 1) with
          | nil => rw [hcase] at hrest; simp at hrest
          | cons x t =>
            rw [hcase] at hrest
            simpa only [List.getLast?_cons_cons] using hrest

/-- Witness for `blink_cancel_writes_off`: a three-cycle blink cancelled
during the on-wait of cycle 1 ends its trace with an off write. -/
theorem blink_cancel_writes_off_witness :
    0 ≤ (BStop.duringOn 1).idx ∧ (BStop.duringOn 1).idx < 0 + 3 ∧
      (blinkGo ColorRed 200000000 400000000 (some (BStop.duringOn 1)) 3
          0).getLast? = some BEv.offWrite :=
  ⟨by decide, by decide,
    blink_cancel_writes_off ColorRed 200000000 400000000 3 0
      (BStop.duringOn 1) (by decide) (by decide)⟩

end LedController
